import Mathlib

/-!
Shallow embedding of the Chronex productivity application (src/app.py).

The application is a Flask web app with four entities (User, Task, Note,
Transaction) stored in a relational store.  Route handlers perform a
read-modify-write of the current user's row and the owned collections.
We embed the data model as Lean structures, wall-clock datetimes as
rationals (seconds), calendar dates as integers (days), and each route
handler as a pure state-transition function.  External collaborators
(password hashing, session management, templating) are parameters or are
dropped where they do not influence the stored state, exactly following
the source's boundary.
-/

namespace Chronex

/-- Truncation toward zero of a rational number, the behaviour of Python's
int() conversion applied to a float. -/
def pyIntTrunc (q : ℚ) : ℤ := if 0 ≤ q then ⌊q⌋ else -⌊-q⌋

/-- Round a rational to the nearest integer, ties to even — the behaviour of
Python's built-in round with one argument. -/
def pyRoundHalfEven (q : ℚ) : ℤ :=
  let n := ⌊q⌋
  let f := q - (n : ℚ)
  if f < 1/2 then n
  else if 1/2 < f then n + 1
  else if n % 2 = 0 then n else n + 1

/-- Python round(x, 1): round to one decimal place, ties to even. -/
def pyRound1 (q : ℚ) : ℚ := (pyRoundHalfEven (q * 10) : ℚ) / 10

/-- Python str.lower(): lowercase every character. -/
def pyLower (s : String) : String := String.mk (s.data.map Char.toLower)

/-- Python str.strip(): drop leading and trailing whitespace. -/
def pyStrip (s : String) : String :=
  String.mk (((s.data.dropWhile Char.isWhitespace).reverse.dropWhile Char.isWhitespace).reverse)

/-- User row (class User, src/app.py lines 29-61).  Datetimes are rationals
(seconds), dates are integers (days).  Counters are integers as in the
schema; focus_minutes_today is the daily minutes counter. -/
structure User where
  id : ℕ
  username : String
  email : Option String
  password_hash : String
  total_focus_points : ℤ
  stars_earned : ℤ
  energy_bank_balance : ℤ
  last_energy_collection_time : ℚ
  focus_minutes_today : ℕ
  focus_tracking_date : Option ℤ
  account_created_at : ℚ
  achievement_first_login : Bool
  achievement_first_focus : Bool
  achievement_first_task : Bool
  achievement_first_note : Bool
  achievement_email_added : Bool
  savings_goal_name : Option String
  savings_goal_target : Option ℚ
deriving DecidableEq, Repr

/-- Task row (class Task, src/app.py lines 64-73). -/
structure Task where
  id : ℕ
  user_id : ℕ
  task_title : String
  start_date : ℤ
  deadline_date : Option ℤ
  priority_level : String
  is_completed : Bool
  task_created_at : ℚ
deriving DecidableEq, Repr

/-- Note row (class Note, src/app.py lines 76-82). -/
structure Note where
  id : ℕ
  user_id : ℕ
  note_title : String
  note_content : String
  last_modified_at : ℚ
deriving DecidableEq, Repr

/-- Transaction row (class Transaction, src/app.py lines 85-93). -/
structure Transaction where
  id : ℕ
  user_id : ℕ
  transaction_type : String
  transaction_description : String
  transaction_amount : ℚ
  transaction_category : String
  transaction_date : ℤ
deriving DecidableEq, Repr

/-- The whole persistent store: all rows of the four tables. -/
structure AppState where
  users : List User
  tasks : List Task
  notes : List Note
  transactions : List Transaction
deriving DecidableEq, Repr

/-- Look up a user row by primary key (first match). -/
def getUser : List User → ℕ → Option User
  | [], _ => none
  | u :: rest, i => if u.id = i then some u else getUser rest i

/-- Persist an update of the user row with the given id. -/
def updateUser (uid : ℕ) (f : User → User) : List User → List User
  | [] => []
  | u :: rest => (if u.id = uid then f u else u) :: updateUser uid f rest

/-- Daily focus counter reset (src/app.py lines 206-212 and 524-527): if the
stored tracking date differs from today, zero the daily minutes and move
the tracking date to today. -/
def daily_reset (today : ℤ) (u : User) : User :=
  if u.focus_tracking_date ≠ some today then
    { u with focus_minutes_today := 0, focus_tracking_date := some today }
  else u

/-- Points awarded for completing a task by priority
(src/app.py line 380): the dict lookup with default 10. -/
def toggle_points (priority : String) : ℤ :=
  if priority = "high" then 30
  else if priority = "medium" then 20
  else if priority = "low" then 10
  else 10

/-- Core of handle_toggle_task (src/app.py lines 373-384): flip the task's
completion status; award points only on the incomplete-to-complete
transition. -/
def toggle_task_user (t : Task) (u : User) : Task × User :=
  let was_completed := t.is_completed
  let t2 := { t with is_completed := !t.is_completed }
  if t2.is_completed && !was_completed then
    (t2, { u with total_focus_points := u.total_focus_points + toggle_points t.priority_level })
  else
    (t2, u)

/-- Core of handle_session_complete (src/app.py lines 515-534): +1 star,
+10 points, reset the energy anchor to now, apply the daily reset, add the
reported minutes, unlock the Focus Master achievement. -/
def session_complete_user (now : ℚ) (today : ℤ) (completed_minutes : ℕ) (u : User) : User :=
  let u1 := { u with stars_earned := u.stars_earned + 1,
                     total_focus_points := u.total_focus_points + 10,
                     last_energy_collection_time := now }
  let u2 := daily_reset today u1
  let u3 := { u2 with focus_minutes_today := u2.focus_minutes_today + completed_minutes }
  if !u3.achievement_first_focus then { u3 with achievement_first_focus := true } else u3

/-- JSON body of the complete-session endpoint: an absent body (outer none)
or a body missing the minutes key (inner none), as read by
request.get_json() or \x7b\x7d followed by .get with default 1
(src/app.py lines 515-516). -/
def parse_minutes (body : Option (Option ℕ)) : ℕ := (body.getD none).getD 1

/-- handle_session_complete at the user-row level, including body parsing
(src/app.py lines 507-534). -/
def handle_session_complete_user (body : Option (Option ℕ)) (now : ℚ) (today : ℤ) (u : User) : User :=
  session_complete_user now today (parse_minutes body) u

/-- Lazy energy accrual of show_focus_page (src/app.py lines 488-498):
energy accumulated is int(seconds_elapsed / 5) * stars_earned; when
positive it is banked and the anchor timestamp advances. -/
def collect_energy (now : ℚ) (u : User) : User :=
  let seconds_since_last_collection := now - u.last_energy_collection_time
  let energy_accumulated := pyIntTrunc (seconds_since_last_collection / 5) * u.stars_earned
  if 0 < energy_accumulated then
    { u with energy_bank_balance := u.energy_bank_balance + energy_accumulated,
             last_energy_collection_time := now }
  else u

/-- Core of handle_add_focus_points (src/app.py lines 545-558): the
caller-supplied points value is added with no validation; the Focus Master
achievement unlocks when the amount is positive. -/
def add_focus_points_user (points_to_add : ℤ) (u : User) : User :=
  let u1 := { u with total_focus_points := u.total_focus_points + points_to_add }
  if !u1.achievement_first_focus && decide (0 < points_to_add) then
    { u1 with achievement_first_focus := true }
  else u1

/-- Whether the user has an incomplete task of the given priority
(the .first() existence queries of src/app.py lines 220-222). -/
def has_incomplete_with_priority (uid : ℕ) (p : String) (tasks : List Task) : Bool :=
  tasks.any (fun t => t.user_id == uid && !t.is_completed && t.priority_level == p)

/-- Daily focus goal derivation (src/app.py lines 224-235). -/
def daily_focus_goal (uid : ℕ) (tasks : List Task) : ℕ :=
  if has_incomplete_with_priority uid "high" tasks then 30
  else if has_incomplete_with_priority uid "medium" tasks then 15
  else if has_incomplete_with_priority uid "low" tasks then 10
  else 0

/-- Dashboard progress percentage (src/app.py lines 238-241):
min(100, int((focus_minutes_today / daily_focus_goal) * 100)) when the
goal is positive, else 100. -/
def progress_percentage (minutes goal : ℕ) : ℕ :=
  if 0 < goal then
    min 100 (pyIntTrunc ((minutes : ℚ) / (goal : ℚ) * 100)).toNat
  else 100

/-- handle_login (src/app.py lines 112-139): find the user whose email or
username matches the submitted identifier case-insensitively; on a correct
password, unlock the First Steps achievement.  The password-hash verifier
is the external collaborator check_password_hash. -/
def handle_login (check : String → String → Bool) (identifier password : String)
    (s : AppState) : AppState :=
  let login_identifier := pyLower (pyStrip identifier)
  match s.users.find? (fun u =>
      (u.email.getD "" |> pyLower) == login_identifier
        || pyLower u.username == login_identifier) with
  | none => s
  | some found_user =>
    if check found_user.password_hash password then
      { s with users := updateUser found_user.id (fun u =>
          if !u.achievement_first_login then { u with achievement_first_login := true }
          else u) s.users }
    else s

/-- handle_registration (src/app.py lines 142-179): validate password
confirmation and username/email availability, then create the account.
generate_password_hash is the external collaborator hash; now is the
creation timestamp. -/
def handle_registration (hash : String → String)
    (username email password confirm_password : String) (newId : ℕ) (now : ℚ)
    (s : AppState) : AppState :=
  let username1 := pyLower (pyStrip username)
  let email1 := pyLower (pyStrip email)
  if password ≠ confirm_password then s
  else if s.users.any (fun u => pyLower u.username == username1) then s
  else if email1 ≠ "" ∧ s.users.any (fun u => u.email.any (fun e => pyLower e == email1)) then s
  else
    { s with users := s.users ++ [{
        id := newId
        username := username1
        email := if email1 = "" then none else some email1
        password_hash := hash password
        total_focus_points := 0
        stars_earned := 0
        energy_bank_balance := 0
        last_energy_collection_time := now
        focus_minutes_today := 0
        focus_tracking_date := none
        account_created_at := now
        achievement_first_login := false
        achievement_first_focus := false
        achievement_first_task := false
        achievement_first_note := false
        achievement_email_added := if email1 = "" then false else true
        savings_goal_name := none
        savings_goal_target := none }] }

/-- handle_add_task (src/app.py lines 306-339): create the task and unlock
the Task Starter achievement on the first one. -/
def handle_add_task (uid : ℕ) (title : String) (start_date : ℤ)
    (deadline_date : Option ℤ) (priority : String) (newId : ℕ) (now : ℚ)
    (s : AppState) : AppState :=
  { s with
    tasks := s.tasks ++ [{
      id := newId
      user_id := uid
      task_title := title
      start_date := start_date
      deadline_date := deadline_date
      priority_level := priority
      is_completed := false
      task_created_at := now }]
    users := updateUser uid (fun u =>
      if !u.achievement_first_task then { u with achievement_first_task := true } else u)
      s.users }

/-- handle_update_task (src/app.py lines 342-362): update the editable
fields of the owned task; a missing or foreign task is a no-op. -/
def handle_update_task (uid taskId : ℕ) (title : String) (start_date : ℤ)
    (deadline_date : Option ℤ) (priority : String) (s : AppState) : AppState :=
  { s with tasks := s.tasks.map (fun t =>
      if t.id == taskId && t.user_id == uid then
        { t with task_title := title, start_date := start_date,
                 deadline_date := deadline_date, priority_level := priority }
      else t) }

/-- handle_toggle_task (src/app.py lines 365-386): toggle the owned task's
completion and award priority points on the incomplete-to-complete
transition; a missing or foreign task is a no-op. -/
def handle_toggle_task (uid taskId : ℕ) (s : AppState) : AppState :=
  match s.tasks.find? (fun t => t.id == taskId && t.user_id == uid) with
  | none => s
  | some found_task =>
    let was_completed := found_task.is_completed
    let t2 := { found_task with is_completed := !found_task.is_completed }
    let users1 :=
      if t2.is_completed && !was_completed then
        updateUser uid (fun u =>
          { u with total_focus_points :=
              u.total_focus_points + toggle_points found_task.priority_level }) s.users
      else s.users
    { s with
      tasks := s.tasks.map (fun t => if t.id == found_task.id then t2 else t)
      users := users1 }

/-- handle_delete_task (src/app.py lines 389-402). -/
def handle_delete_task (uid taskId : ℕ) (s : AppState) : AppState :=
  { s with tasks := s.tasks.filter (fun t => !(t.id == taskId && t.user_id == uid)) }

/-- handle_add_note (src/app.py lines 415-439): create the note and unlock
the Note Taker achievement on the first one. -/
def handle_add_note (uid : ℕ) (title content : String) (newId : ℕ) (now : ℚ)
    (s : AppState) : AppState :=
  { s with
    notes := s.notes ++ [{
      id := newId
      user_id := uid
      note_title := title
      note_content := content
      last_modified_at := now }]
    users := updateUser uid (fun u =>
      if !u.achievement_first_note then { u with achievement_first_note := true } else u)
      s.users }

/-- handle_update_note (src/app.py lines 442-456): update the owned note;
the commit refreshes last_modified_at. -/
def handle_update_note (uid noteId : ℕ) (title content : String) (now : ℚ)
    (s : AppState) : AppState :=
  { s with notes := s.notes.map (fun n =>
      if n.id == noteId && n.user_id == uid then
        { n with note_title := title, note_content := content, last_modified_at := now }
      else n) }

/-- handle_delete_note (src/app.py lines 459-472). -/
def handle_delete_note (uid noteId : ℕ) (s : AppState) : AppState :=
  { s with notes := s.notes.filter (fun n => !(n.id == noteId && n.user_id == uid)) }

/-- The state mutation of show_dashboard (src/app.py lines 206-212): the
daily focus counter reset; everything else the dashboard computes is a
pure view. -/
def show_dashboard_state (uid : ℕ) (today : ℤ) (s : AppState) : AppState :=
  { s with users := updateUser uid (daily_reset today) s.users }

/-- The state mutation of show_focus_page (src/app.py lines 477-504): the
lazy energy collection. -/
def show_focus_page_state (uid : ℕ) (now : ℚ) (s : AppState) : AppState :=
  { s with users := updateUser uid (collect_energy now) s.users }

/-- handle_session_complete at the store level (src/app.py lines 507-542). -/
def handle_session_complete_state (uid : ℕ) (body : Option (Option ℕ)) (now : ℚ)
    (today : ℤ) (s : AppState) : AppState :=
  { s with users := updateUser uid (handle_session_complete_user body now today) s.users }

/-- handle_add_focus_points at the store level (src/app.py lines 545-563). -/
def handle_add_focus_points_state (uid : ℕ) (points_to_add : ℤ) (s : AppState) : AppState :=
  { s with users := updateUser uid (add_focus_points_user points_to_add) s.users }

/-- handle_add_transaction (src/app.py lines 655-670); the date column
defaults to today. -/
def handle_add_transaction (uid : ℕ) (ttype description : String) (amount : ℚ)
    (category : String) (today : ℤ) (newId : ℕ) (s : AppState) : AppState :=
  { s with transactions := s.transactions ++ [{
      id := newId
      user_id := uid
      transaction_type := ttype
      transaction_description := description
      transaction_amount := amount
      transaction_category := category
      transaction_date := today }] }

/-- handle_set_goal (src/app.py lines 673-682). -/
def handle_set_goal (uid : ℕ) (name : String) (target : ℚ) (s : AppState) : AppState :=
  { s with users := updateUser uid (fun u =>
      { u with savings_goal_name := some name, savings_goal_target := some target }) s.users }

/-- handle_update_profile (src/app.py lines 700-719): a non-empty changed
email is stored (and unlocks the Connected achievement) unless another
account already uses it; an empty submission clears the email and leaves
the achievement flag untouched. -/
def handle_update_profile (uid : ℕ) (email : String) (s : AppState) : AppState :=
  let new_email := pyLower (pyStrip email)
  { s with users := updateUser uid (fun u =>
      if new_email ≠ "" then
        if new_email ≠ pyLower (u.email.getD "") then
          if s.users.any (fun v => v.email.any (fun e => pyLower e == new_email)) then u
          else { u with email := some new_email, achievement_email_added := true }
        else u
      else { u with email := none }) s.users }

/-- handle_change_password (src/app.py lines 722-745): verify the current
password and the confirmation before storing the new hash. -/
def handle_change_password (check : String → String → Bool) (hash : String → String)
    (uid : ℕ) (current_password new_password confirm_new_password : String)
    (s : AppState) : AppState :=
  { s with users := updateUser uid (fun u =>
      if !check u.password_hash current_password then u
      else if new_password ≠ confirm_new_password then u
      else { u with password_hash := hash new_password }) s.users }

/-- Sum of the user's transaction amounts of the given type (the SQL sum
with the trailing or-0 of src/app.py lines 603-612). -/
def transaction_sum (uid : ℕ) (ttype : String) (txs : List Transaction) : ℚ :=
  ((txs.filter (fun t => t.user_id == uid && t.transaction_type == ttype)).map
    (fun t => t.transaction_amount)).sum

/-- total_income of show_budget_page. -/
def total_income (uid : ℕ) (txs : List Transaction) : ℚ := transaction_sum uid "income" txs

/-- total_expenses of show_budget_page. -/
def total_expenses (uid : ℕ) (txs : List Transaction) : ℚ := transaction_sum uid "expense" txs

/-- Estimated months to reach the savings goal (src/app.py lines 630-642).
The outer condition is Python truthiness of savings_goal_target: it also
fails when the target is the number 0. -/
def estimated_months_to_goal (u : User) (txs : List Transaction) : Option ℚ :=
  let ti := total_income u.id txs
  let te := total_expenses u.id txs
  let current_balance := ti - te
  match u.savings_goal_target with
  | none => none
  | some target =>
    if target ≠ 0 ∧ 0 < current_balance then
      let monthly_savings_rate := (ti - te) / 12
      let remaining_amount := target - current_balance
      if target ≤ current_balance then some 0
      else some (max 0 (pyRound1 (remaining_amount / max 1 monthly_savings_rate)))
    else none

/-- The months-to-goal computation exactly as claim C3 words it: computed
whenever a goal target is set (present) and the balance is positive. -/
def claimed_months_to_goal (target? : Option ℚ) (current_balance : ℚ) : Option ℚ :=
  match target? with
  | none => none
  | some target =>
    if 0 < current_balance then
      if target ≤ current_balance then some 0
      else some (max 0 (pyRound1 ((target - current_balance) / max 1 (current_balance / 12))))
    else none

/-- The months-to-goal computation as claim C3 must be amended: the code's
guard uses Python truthiness, so a goal target stored as the number 0 also
disables the estimate. -/
def amended_months_to_goal (target? : Option ℚ) (current_balance : ℚ) : Option ℚ :=
  match target? with
  | none => none
  | some target =>
    if target ≠ 0 ∧ 0 < current_balance then
      if target ≤ current_balance then some 0
      else some (max 0 (pyRound1 ((target - current_balance) / max 1 (current_balance / 12))))
    else none

/-- One inbound action of the application, carrying the acting user's id
and the request parameters.  Account deletion (handle_delete_account) is
deliberately outside this type: claims C1 and C8 exempt it.  Routes that
never write (task/note/achievements/settings/budget list views,
forgot-password, logout) are omitted since they leave the store
untouched. -/
inductive Op where
  | login (identifier password : String)
  | register (username email password confirm : String) (newId : ℕ) (now : ℚ)
  | addTask (uid : ℕ) (title : String) (start_date : ℤ) (deadline : Option ℤ)
      (priority : String) (newId : ℕ) (now : ℚ)
  | updateTask (uid taskId : ℕ) (title : String) (start_date : ℤ) (deadline : Option ℤ)
      (priority : String)
  | toggleTask (uid taskId : ℕ)
  | deleteTask (uid taskId : ℕ)
  | addNote (uid : ℕ) (title content : String) (newId : ℕ) (now : ℚ)
  | updateNote (uid noteId : ℕ) (title content : String) (now : ℚ)
  | deleteNote (uid noteId : ℕ)
  | viewDashboard (uid : ℕ) (today : ℤ)
  | viewFocus (uid : ℕ) (now : ℚ)
  | sessionComplete (uid : ℕ) (body : Option (Option ℕ)) (now : ℚ) (today : ℤ)
  | addFocusPoints (uid : ℕ) (points : ℤ)
  | addTransaction (uid : ℕ) (ttype description : String) (amount : ℚ)
      (category : String) (today : ℤ) (newId : ℕ)
  | setGoal (uid : ℕ) (name : String) (target : ℚ)
  | updateProfile (uid : ℕ) (email : String)
  | changePassword (uid : ℕ) (current new confirm : String)
deriving DecidableEq, Repr

/-- Dispatch one action to its route handler.  check and hash are the
external credential collaborators. -/
def applyOp (check : String → String → Bool) (hash : String → String)
    (op : Op) (s : AppState) : AppState :=
  match op with
  | .login identifier password => handle_login check identifier password s
  | .register username email password confirm newId now =>
      handle_registration hash username email password confirm newId now s
  | .addTask uid title sd dl pr newId now => handle_add_task uid title sd dl pr newId now s
  | .updateTask uid taskId title sd dl pr => handle_update_task uid taskId title sd dl pr s
  | .toggleTask uid taskId => handle_toggle_task uid taskId s
  | .deleteTask uid taskId => handle_delete_task uid taskId s
  | .addNote uid title content newId now => handle_add_note uid title content newId now s
  | .updateNote uid noteId title content now => handle_update_note uid noteId title content now s
  | .deleteNote uid noteId => handle_delete_note uid noteId s
  | .viewDashboard uid today => show_dashboard_state uid today s
  | .viewFocus uid now => show_focus_page_state uid now s
  | .sessionComplete uid body now today => handle_session_complete_state uid body now today s
  | .addFocusPoints uid points => handle_add_focus_points_state uid points s
  | .addTransaction uid ty de am ca today newId =>
      handle_add_transaction uid ty de am ca today newId s
  | .setGoal uid name target => handle_set_goal uid name target s
  | .updateProfile uid email => handle_update_profile uid email s
  | .changePassword uid cur npw ncf => handle_change_password check hash uid cur npw ncf s

/-- Run a sequence of actions. -/
def apply_ops (check : String → String → Bool) (hash : String → String)
    (ops : List Op) (s : AppState) : AppState :=
  ops.foldl (fun acc op => applyOp check hash op acc) s

/-- The caller-supplied points value of the add-focus-points endpoint is
non-negative; every other action is unrestricted. -/
def opPointsOk : Op → Prop
  | .addFocusPoints _ points => 0 ≤ points
  | _ => True

/-- Ordering of the three monotone ledger counters. -/
def countersLE (u v : User) : Prop :=
  u.total_focus_points ≤ v.total_focus_points ∧
  u.stars_earned ≤ v.stars_earned ∧
  u.energy_bank_balance ≤ v.energy_bank_balance

/-- Flag monotonicity: every achievement flag that is set stays set. -/
def flagsLE (u v : User) : Prop :=
  (u.achievement_first_login = true → v.achievement_first_login = true) ∧
  (u.achievement_first_focus = true → v.achievement_first_focus = true) ∧
  (u.achievement_first_task = true → v.achievement_first_task = true) ∧
  (u.achievement_first_note = true → v.achievement_first_note = true) ∧
  (u.achievement_email_added = true → v.achievement_email_added = true)

/-- A concrete user row used by witnesses and counterexamples. -/
def demoUser : User := {
  id := 1
  username := "artur"
  email := some "artur@demo.com"
  password_hash := "h1"
  total_focus_points := 0
  stars_earned := 3
  energy_bank_balance := 0
  last_energy_collection_time := 0
  focus_minutes_today := 0
  focus_tracking_date := some 0
  account_created_at := 0
  achievement_first_login := true
  achievement_first_focus := false
  achievement_first_task := false
  achievement_first_note := false
  achievement_email_added := true
  savings_goal_name := none
  savings_goal_target := none }

/-- A user whose savings-goal target is stored as the number 0. -/
def zeroGoalUser : User := { demoUser with savings_goal_target := some 0 }

/-- A user with savings-goal target 600. -/
def goal600User : User := { demoUser with savings_goal_target := some 600 }

/-- A user with savings-goal target 40. -/
def goal40User : User := { demoUser with savings_goal_target := some 40 }

/-- A single income transaction of amount 60 owned by user 1. -/
def incomeTx60 : Transaction := {
  id := 1
  user_id := 1
  transaction_type := "income"
  transaction_description := "salary"
  transaction_amount := 60
  transaction_category := "pay"
  transaction_date := 0 }

/-- A one-user store around demoUser. -/
def demoState : AppState := { users := [demoUser], tasks := [], notes := [], transactions := [] }

/-- A concrete incomplete high-priority task owned by user 1. -/
def demoTask : Task := {
  id := 1
  user_id := 1
  task_title := "thesis"
  start_date := 0
  deadline_date := none
  priority_level := "high"
  is_completed := false
  task_created_at := 0 }

/-- A concrete incomplete low-priority task owned by user 1. -/
def lowTask : Task := {
  id := 2
  user_id := 1
  task_title := "laundry"
  start_date := 0
  deadline_date := none
  priority_level := "low"
  is_completed := false
  task_created_at := 0 }

example : toggle_points "high" = 30 := by decide
example : parse_minutes none = 1 := by decide
example : parse_minutes (some none) = 1 := by decide
example : parse_minutes (some (some 25)) = 25 := by decide
example : progress_percentage 7 30 = 23 := by
  norm_num [progress_percentage, pyIntTrunc]
  decide
example : progress_percentage 5 0 = 100 := by decide
example : pyRound1 108 = 108 := by
  norm_num [pyRound1, pyRoundHalfEven]
example : pyIntTrunc (17 / 5) = 3 := by
  norm_num [pyIntTrunc]
example : pyLower (pyStrip "  Hello ") = "hello" := by decide

/-- Shared description of one completed focus session at the user-row
level: counters, anchor timestamp, daily minutes and the achievement
flag. -/
theorem session_complete_user_fields (u : User) (now : ℚ) (today : ℤ) (m : ℕ) :
    (session_complete_user now today m u).stars_earned = u.stars_earned + 1 ∧
    (session_complete_user now today m u).total_focus_points = u.total_focus_points + 10 ∧
    (session_complete_user now today m u).last_energy_collection_time = now ∧
    (session_complete_user now today m u).focus_minutes_today
      = (daily_reset today u).focus_minutes_today + m ∧
    (session_complete_user now today m u).achievement_first_focus = true ∧
    (session_complete_user now today m u).focus_tracking_date
      = (daily_reset today u).focus_tracking_date := by
  unfold session_complete_user daily_reset
  by_cases hd : u.focus_tracking_date ≠ some today <;>
    by_cases hf : u.achievement_first_focus <;>
      simp [hd, hf]

/-- C7: completing a focus session always awards exactly one star and ten
points independently of the reported minutes, moves the energy-collection
anchor to now, adds the reported minutes to the daily counter after the
daily-reset check, and leaves the Focus Master achievement set. -/
theorem session_complete_rewards (u : User) (now : ℚ) (today : ℤ) (m : ℕ) :
    (session_complete_user now today m u).stars_earned = u.stars_earned + 1 ∧
    (session_complete_user now today m u).total_focus_points = u.total_focus_points + 10 ∧
    (session_complete_user now today m u).last_energy_collection_time = now ∧
    (session_complete_user now today m u).focus_minutes_today
      = (daily_reset today u).focus_minutes_today + m ∧
    (session_complete_user now today m u).achievement_first_focus = true := by
  obtain ⟨h1, h2, h3, h4, h5, -⟩ := session_complete_user_fields u now today m
  exact ⟨h1, h2, h3, h4, h5⟩

/-- C10: a session-completion request with no JSON body, or with a body
lacking the minutes key, behaves exactly as minutes = 1: one minute is
added to the daily counter after the reset check, while the star and
point awards are unchanged. -/
theorem session_minutes_default (u : User) (now : ℚ) (today : ℤ) :
    handle_session_complete_user none now today u = session_complete_user now today 1 u ∧
    handle_session_complete_user (some none) now today u = session_complete_user now today 1 u ∧
    (handle_session_complete_user none now today u).focus_minutes_today
      = (daily_reset today u).focus_minutes_today + 1 ∧
    (handle_session_complete_user none now today u).stars_earned = u.stars_earned + 1 ∧
    (handle_session_complete_user none now today u).total_focus_points
      = u.total_focus_points + 10 := by
  obtain ⟨h1, h2, h3, h4, h5, h6⟩ := session_complete_user_fields u now today 1
  exact ⟨rfl, rfl, h4, h1, h2⟩

/-- C2: on a focus-page view with non-negative elapsed time s since the
last collection, the accrued energy is floor(s / 5) * stars_earned; it is
banked and the anchor timestamp advances exactly when that amount is
positive, and otherwise the user row is untouched. -/
theorem energy_accrual_on_focus_view (u : User) (now : ℚ)
    (hs : 0 ≤ now - u.last_energy_collection_time) :
    (0 < ⌊(now - u.last_energy_collection_time) / 5⌋ * u.stars_earned →
      collect_energy now u =
        { u with
          energy_bank_balance := u.energy_bank_balance +
            ⌊(now - u.last_energy_collection_time) / 5⌋ * u.stars_earned,
          last_energy_collection_time := now }) ∧
    (⌊(now - u.last_energy_collection_time) / 5⌋ * u.stars_earned ≤ 0 →
      collect_energy now u = u) := by
  have ht : pyIntTrunc ((now - u.last_energy_collection_time) / 5)
      = ⌊(now - u.last_energy_collection_time) / 5⌋ := by
    unfold pyIntTrunc
    rw [if_pos (div_nonneg hs (by norm_num))]
  constructor
  · intro hpos
    unfold collect_energy
    dsimp only
    rw [ht, if_pos hpos]
  · intro hnp
    unfold collect_energy
    dsimp only
    rw [ht, if_neg (not_lt.mpr hnp)]

/-- C4: toggling an incomplete task completes it and awards exactly 30, 20,
10 or 10 points for priorities high, medium, low or anything else; toggling
a complete task un-completes it and changes no points; on one incomplete
high-priority task the toggle sequence awards 30 twice, 60 in total. -/
theorem toggle_task_award (t : Task) (u : User) :
    (t.is_completed = false →
      (toggle_task_user t u).1.is_completed = true ∧
      (toggle_task_user t u).2.total_focus_points = u.total_focus_points +
        (if t.priority_level = "high" then 30
         else if t.priority_level = "medium" then 20
         else if t.priority_level = "low" then 10 else 10)) ∧
    (t.is_completed = true →
      (toggle_task_user t u).1.is_completed = false ∧
      (toggle_task_user t u).2.total_focus_points = u.total_focus_points) ∧
    (t.is_completed = false → t.priority_level = "high" →
      (toggle_task_user (toggle_task_user (toggle_task_user t u).1
          (toggle_task_user t u).2).1
        (toggle_task_user (toggle_task_user t u).1
          (toggle_task_user t u).2).2).2.total_focus_points
        = u.total_focus_points + 60) := by
  refine ⟨?_, ?_, ?_⟩
  · intro hc
    unfold toggle_task_user toggle_points
    simp [hc]
  · intro hc
    unfold toggle_task_user
    simp [hc]
  · intro hc hp
    unfold toggle_task_user toggle_points
    simp [hc, hp]
    ring

/-- The Boolean incomplete-task query agrees with its propositional
reading. -/
theorem has_incomplete_with_priority_iff (uid : ℕ) (p : String) (tasks : List Task) :
    has_incomplete_with_priority uid p tasks = true ↔
      ∃ t ∈ tasks, t.user_id = uid ∧ t.is_completed = false ∧ t.priority_level = p := by
  unfold has_incomplete_with_priority
  simp [List.any_eq_true, Bool.and_eq_true, Bool.not_eq_true']
  tauto

/-- For a positive goal the progress formula is natural floor division. -/
theorem progress_percentage_eq_div (m g : ℕ) (hg : 0 < g) :
    progress_percentage m g = min 100 ((100 * m) / g) := by
  unfold progress_percentage
  rw [if_pos hg]
  have h0 : (0:ℚ) ≤ (m:ℚ) / (g:ℚ) * 100 := by positivity
  have h1 : pyIntTrunc ((m:ℚ) / (g:ℚ) * 100) = ⌊(m:ℚ) / (g:ℚ) * 100⌋ := by
    unfold pyIntTrunc
    rw [if_pos h0]
  have h2 : (m:ℚ) / (g:ℚ) * 100 = ((100 * m : ℕ) : ℚ) / ((g : ℕ) : ℚ) := by
    push_cast
    ring
  rw [h1, h2, Int.floor_toNat, Nat.floor_div_eq_div]

/-- C5: the dashboard's daily focus goal is 30 if any incomplete task of
the user has priority high, else 15 for medium, else 10 for low, else 0;
with both a high and a low incomplete task the goal is 30; the progress
percentage is min(100, floor(100 * minutes / goal)) for a positive goal
and 100 for goal 0. -/
theorem daily_goal_and_progress (uid : ℕ) (tasks : List Task) (m : ℕ) :
    ((∃ t ∈ tasks, t.user_id = uid ∧ t.is_completed = false ∧ t.priority_level = "high") →
      daily_focus_goal uid tasks = 30) ∧
    (¬ (∃ t ∈ tasks, t.user_id = uid ∧ t.is_completed = false ∧ t.priority_level = "high") →
      (∃ t ∈ tasks, t.user_id = uid ∧ t.is_completed = false ∧ t.priority_level = "medium") →
      daily_focus_goal uid tasks = 15) ∧
    (¬ (∃ t ∈ tasks, t.user_id = uid ∧ t.is_completed = false ∧ t.priority_level = "high") →
      ¬ (∃ t ∈ tasks, t.user_id = uid ∧ t.is_completed = false ∧ t.priority_level = "medium") →
      (∃ t ∈ tasks, t.user_id = uid ∧ t.is_completed = false ∧ t.priority_level = "low") →
      daily_focus_goal uid tasks = 10) ∧
    (¬ (∃ t ∈ tasks, t.user_id = uid ∧ t.is_completed = false ∧ t.priority_level = "high") →
      ¬ (∃ t ∈ tasks, t.user_id = uid ∧ t.is_completed = false ∧ t.priority_level = "medium") →
      ¬ (∃ t ∈ tasks, t.user_id = uid ∧ t.is_completed = false ∧ t.priority_level = "low") →
      daily_focus_goal uid tasks = 0) ∧
    ((∃ t ∈ tasks, t.user_id = uid ∧ t.is_completed = false ∧ t.priority_level = "high") →
      (∃ t ∈ tasks, t.user_id = uid ∧ t.is_completed = false ∧ t.priority_level = "low") →
      daily_focus_goal uid tasks = 30) ∧
    (0 < daily_focus_goal uid tasks →
      progress_percentage m (daily_focus_goal uid tasks)
        = min 100 ((100 * m) / daily_focus_goal uid tasks)) ∧
    (daily_focus_goal uid tasks = 0 →
      progress_percentage m (daily_focus_goal uid tasks) = 100) := by
  refine ⟨?_, ?_, ?_, ?_, ?_, ?_, ?_⟩
  · intro hh
    unfold daily_focus_goal
    rw [if_pos ((has_incomplete_with_priority_iff uid "high" tasks).mpr hh)]
  · intro hh hm
    unfold daily_focus_goal
    rw [if_neg (by simpa [has_incomplete_with_priority_iff] using hh),
        if_pos ((has_incomplete_with_priority_iff uid "medium" tasks).mpr hm)]
  · intro hh hm hl
    unfold daily_focus_goal
    rw [if_neg (by simpa [has_incomplete_with_priority_iff] using hh),
        if_neg (by simpa [has_incomplete_with_priority_iff] using hm),
        if_pos ((has_incomplete_with_priority_iff uid "low" tasks).mpr hl)]
  · intro hh hm hl
    unfold daily_focus_goal
    rw [if_neg (by simpa [has_incomplete_with_priority_iff] using hh),
        if_neg (by simpa [has_incomplete_with_priority_iff] using hm),
        if_neg (by simpa [has_incomplete_with_priority_iff] using hl)]
  · intro hh _
    unfold daily_focus_goal
    rw [if_pos ((has_incomplete_with_priority_iff uid "high" tasks).mpr hh)]
  · intro hg
    exact progress_percentage_eq_div m (daily_focus_goal uid tasks) hg
  · intro hg
    rw [hg]
    rfl

/-- C6: on a date strictly after the stored focus_tracking_date, both
readers of focus_minutes_today — the dashboard view and the
session-completion handler — reset the daily counter to 0 and move the
tracking date to today before using or incrementing the value, regardless
of the stored counter. -/
theorem daily_counter_reset_on_later_date (u : User) (d today : ℤ)
    (hd : u.focus_tracking_date = some d) (hlt : d < today) :
    (daily_reset today u).focus_minutes_today = 0 ∧
    (daily_reset today u).focus_tracking_date = some today ∧
    (∀ (now : ℚ) (m : ℕ),
      (session_complete_user now today m u).focus_minutes_today = m ∧
      (session_complete_user now today m u).focus_tracking_date = some today) := by
  have hne : u.focus_tracking_date ≠ some today := by
    rw [hd]
    intro h
    exact absurd (Option.some.inj h) (ne_of_lt hlt)
  have hr0 : (daily_reset today u).focus_minutes_today = 0 := by
    unfold daily_reset
    rw [if_pos hne]
  have hrd : (daily_reset today u).focus_tracking_date = some today := by
    unfold daily_reset
    rw [if_pos hne]
  refine ⟨hr0, hrd, fun now m => ?_⟩
  obtain ⟨-, -, -, h4, -, h6⟩ := session_complete_user_fields u now today m
  constructor
  · rw [h4, hr0, Nat.zero_add]
  · rw [h6, hrd]

/-- C3 counterexample: a savings-goal target stored as the number 0 with a
positive balance.  The claim's formula (goal target set and balance
positive) yields 0 months, but the code's Python-truthiness guard yields
no estimate at all. -/
theorem budget_goal_zero_target_counterexample :
    zeroGoalUser.savings_goal_target = some 0 ∧
    total_income zeroGoalUser.id [incomeTx60]
      - total_expenses zeroGoalUser.id [incomeTx60] = 60 ∧
    claimed_months_to_goal (some 0) 60 = some 0 ∧
    estimated_months_to_goal zeroGoalUser [incomeTx60] = none := by
  refine ⟨rfl, ?_, ?_, ?_⟩
  · simp [total_income, total_expenses, transaction_sum, zeroGoalUser, demoUser, incomeTx60]
  · simp only [claimed_months_to_goal]
    norm_num
  · simp [estimated_months_to_goal, zeroGoalUser, demoUser]

/-- C3 (amended): the budget page's estimate equals the claimed formula
amended so that a goal target stored as 0 also disables it — present
exactly when the target is set and non-zero and the balance is positive,
0 months when the balance already meets the target, otherwise
max(0, round1((target - balance) / max(1, balance / 12))); with the worked
examples target 600 and balance 60 giving 108.0, target 40 and balance 60
giving 0, and no estimate without a (non-zero) target or with a
non-positive balance. -/
theorem budget_months_to_goal_amended :
    (∀ (u : User) (txs : List Transaction),
      estimated_months_to_goal u txs
        = amended_months_to_goal u.savings_goal_target
            (total_income u.id txs - total_expenses u.id txs)) ∧
    estimated_months_to_goal goal600User [incomeTx60] = some 108 ∧
    estimated_months_to_goal goal40User [incomeTx60] = some 0 ∧
    (∀ b : ℚ, amended_months_to_goal none b = none) ∧
    (∀ t b : ℚ, b ≤ 0 → amended_months_to_goal (some t) b = none) ∧
    (∀ b : ℚ, amended_months_to_goal (some 0) b = none) := by
  have hiff : ∀ (u : User) (txs : List Transaction),
      estimated_months_to_goal u txs
        = amended_months_to_goal u.savings_goal_target
            (total_income u.id txs - total_expenses u.id txs) := by
    intro u txs
    unfold estimated_months_to_goal amended_months_to_goal
    rfl
  refine ⟨hiff, ?_, ?_, ?_, ?_, ?_⟩
  · have hb : total_income goal600User.id [incomeTx60]
        - total_expenses goal600User.id [incomeTx60] = 60 := by
      simp [total_income, total_expenses, transaction_sum, goal600User, demoUser, incomeTx60]
    rw [hiff goal600User [incomeTx60], hb,
      show goal600User.savings_goal_target = some 600 from rfl]
    simp only [amended_months_to_goal]
    norm_num [pyRound1, pyRoundHalfEven]
  · have hb : total_income goal40User.id [incomeTx60]
        - total_expenses goal40User.id [incomeTx60] = 60 := by
      simp [total_income, total_expenses, transaction_sum, goal40User, demoUser, incomeTx60]
    rw [hiff goal40User [incomeTx60], hb,
      show goal40User.savings_goal_target = some 40 from rfl]
    simp only [amended_months_to_goal]
    norm_num
  · intro b
    rfl
  · intro t b hb
    simp only [amended_months_to_goal]
    rw [if_neg]
    intro h
    exact absurd h.2 (not_lt.mpr hb)
  · intro b
    simp only [amended_months_to_goal]
    rw [if_neg]
    intro h
    exact h.1 rfl

/-- Persisting an update that fixes every row with the target id leaves
the table unchanged. -/
theorem updateUser_eq_of_fix (uid : ℕ) (f : User → User) (users : List User)
    (h : ∀ v ∈ users, v.id = uid → f v = v) : updateUser uid f users = users := by
  induction users with
  | nil => rfl
  | cons a l ih =>
    unfold updateUser
    by_cases ha : a.id = uid
    · rw [if_pos ha, h a (List.mem_cons_self a l) ha,
        ih fun v hv hvid => h v (List.mem_cons_of_mem a hv) hvid]
    · rw [if_neg ha, ih fun v hv hvid => h v (List.mem_cons_of_mem a hv) hvid]

/-- C9: a registration that fails validation (password mismatch, taken
username, taken email) and a password change that fails verification
(wrong current password, mismatched new passwords) abort without mutating
any stored state: no user appears and no user row changes. -/
theorem validation_failure_no_mutation
    (check : String → String → Bool) (hash : String → String)
    (username email password confirm : String) (newId : ℕ) (now : ℚ)
    (uid : ℕ) (cur npw ncf : String) (s : AppState) :
    ((password ≠ confirm ∨
      (∃ v ∈ s.users, pyLower v.username = pyLower (pyStrip username)) ∨
      (pyLower (pyStrip email) ≠ "" ∧
        ∃ v ∈ s.users, ∃ e, v.email = some e ∧ pyLower e = pyLower (pyStrip email))) →
      handle_registration hash username email password confirm newId now s = s) ∧
    ((∀ v ∈ s.users, v.id = uid → check v.password_hash cur = false ∨ npw ≠ ncf) →
      handle_change_password check hash uid cur npw ncf s = s) := by
  constructor
  · intro hbad
    unfold handle_registration
    dsimp only
    split_ifs with h1 h2 h3 h4 <;> try rfl
    · exfalso
      rcases hbad with hpw | ⟨v, hv, hvu⟩ | ⟨hne, v, hv, e, hve, hvl⟩
      · exact h1 hpw
      · exact h2 (List.any_eq_true.mpr ⟨v, hv, by simp [hvu]⟩)
      · exact h3 ⟨hne, List.any_eq_true.mpr ⟨v, hv, by rw [hve]; simp [hvl]⟩⟩
    · exfalso
      rcases hbad with hpw | ⟨v, hv, hvu⟩ | ⟨hne, v, hv, e, hve, hvl⟩
      · exact h1 hpw
      · exact h2 (List.any_eq_true.mpr ⟨v, hv, by simp [hvu]⟩)
      · exact h3 ⟨hne, List.any_eq_true.mpr ⟨v, hv, by rw [hve]; simp [hvl]⟩⟩
  · intro h
    unfold handle_change_password
    rw [updateUser_eq_of_fix uid _ s.users]
    intro v hv hvid
    by_cases hcb : check v.password_hash cur = true
    · have hnpw : npw ≠ ncf := by
        rcases h v hv hvid with hc | hn
        · rw [hcb] at hc
          exact absurd hc (by decide)
        · exact hn
      simp [hcb, hnpw]
    · simp [Bool.not_eq_true] at hcb
      simp [hcb]

/-- Reading a found row after an id-preserving update returns the
(possibly updated) originally-found row. -/
theorem getUser_updateUser_found (uid : ℕ) (f : User → User) (users : List User)
    (i : ℕ) (u : User) (hu : getUser users i = some u) (hf : ∀ w, (f w).id = w.id) :
    getUser (updateUser uid f users) i = some (if u.id = uid then f u else u) := by
  revert hu
  induction users with
  | nil => intro hu; exact absurd hu (by simp [getUser])
  | cons a l ih =>
    intro hu
    simp only [getUser] at hu
    by_cases hi : a.id = i
    · rw [if_pos hi] at hu
      have hau : a = u := Option.some.inj hu
      rw [hau] at hi ⊢
      show getUser ((if u.id = uid then f u else u) :: updateUser uid f l) i = _
      by_cases ha : u.id = uid
      · rw [if_pos ha]
        show (if (f u).id = i then some (f u) else getUser (updateUser uid f l) i) = _
        rw [hf u, if_pos hi]
      · rw [if_neg ha]
        show (if u.id = i then some u else getUser (updateUser uid f l) i) = _
        rw [if_pos hi]
    · rw [if_neg hi] at hu
      show getUser ((if a.id = uid then f a else a) :: updateUser uid f l) i = _
      by_cases ha : a.id = uid
      · rw [if_pos ha]
        show (if (f a).id = i then some (f a) else getUser (updateUser uid f l) i) = _
        rw [hf a, if_neg hi]
        exact ih hu
      · rw [if_neg ha]
        show (if a.id = i then some a else getUser (updateUser uid f l) i) = _
        rw [if_neg hi]
        exact ih hu

/-- Appending rows does not disturb an existing read. -/
theorem getUser_append_of_found (users l : List User) (i : ℕ) (u : User)
    (h : getUser users i = some u) : getUser (users ++ l) i = some u := by
  induction users with
  | nil => exact absurd h (by simp [getUser])
  | cons a t ih =>
    simp only [getUser, List.cons_append] at h ⊢
    by_cases hi : a.id = i
    · rwa [if_pos hi] at h ⊢
    · rw [if_neg hi] at h ⊢
      exact ih h

theorem countersLE_refl (u : User) : countersLE u u := ⟨le_refl _, le_refl _, le_refl _⟩

theorem flagsLE_refl (u : User) : flagsLE u u := ⟨id, id, id, id, id⟩

theorem flagsLE_trans {u v w : User} (h1 : flagsLE u v) (h2 : flagsLE v w) : flagsLE u w :=
  ⟨fun h => h2.1 (h1.1 h), fun h => h2.2.1 (h1.2.1 h), fun h => h2.2.2.1 (h1.2.2.1 h),
   fun h => h2.2.2.2.1 (h1.2.2.2.1 h), fun h => h2.2.2.2.2 (h1.2.2.2.2 h)⟩

theorem flagsLE_ite_self (u v : User) (c : Prop) [Decidable c]
    (h : flagsLE u v) : flagsLE u (if c then v else u) := by
  split_ifs with hc
  · exact h
  · exact flagsLE_refl u

theorem countersLE_ite_self (u v : User) (c : Prop) [Decidable c]
    (h : countersLE u v) : countersLE u (if c then v else u) := by
  split_ifs with hc
  · exact h
  · exact countersLE_refl u

theorem toggle_points_nonneg (p : String) : 0 ≤ toggle_points p := by
  unfold toggle_points
  split_ifs <;> norm_num

theorem session_complete_user_id (now : ℚ) (today : ℤ) (m : ℕ) (w : User) :
    (session_complete_user now today m w).id = w.id := by
  unfold session_complete_user daily_reset
  by_cases hd : w.focus_tracking_date ≠ some today <;>
    by_cases hf : w.achievement_first_focus <;> simp [hd, hf]

theorem session_complete_user_flagsLE (now : ℚ) (today : ℤ) (m : ℕ) (w : User) :
    flagsLE w (session_complete_user now today m w) := by
  unfold flagsLE session_complete_user daily_reset
  by_cases hd : w.focus_tracking_date ≠ some today <;>
    by_cases hf : w.achievement_first_focus <;> simp [hd, hf]

theorem session_complete_user_countersLE (now : ℚ) (today : ℤ) (m : ℕ) (w : User) :
    countersLE w (session_complete_user now today m w) := by
  unfold countersLE session_complete_user daily_reset
  by_cases hd : w.focus_tracking_date ≠ some today <;>
    by_cases hf : w.achievement_first_focus <;> simp [hd, hf]

theorem collect_energy_id (now : ℚ) (w : User) : (collect_energy now w).id = w.id := by
  unfold collect_energy
  dsimp only
  split_ifs <;> rfl

theorem collect_energy_flagsLE (now : ℚ) (w : User) : flagsLE w (collect_energy now w) := by
  unfold flagsLE collect_energy
  dsimp only
  split_ifs <;> simp

theorem collect_energy_countersLE (now : ℚ) (w : User) : countersLE w (collect_energy now w) := by
  unfold countersLE collect_energy
  dsimp only
  split_ifs with h <;> simp
  omega

theorem add_focus_points_user_id (p : ℤ) (w : User) : (add_focus_points_user p w).id = w.id := by
  unfold add_focus_points_user
  dsimp only
  split_ifs <;> rfl

theorem add_focus_points_user_flagsLE (p : ℤ) (w : User) :
    flagsLE w (add_focus_points_user p w) := by
  unfold flagsLE add_focus_points_user
  dsimp only
  split_ifs <;> simp

theorem add_focus_points_user_countersLE (p : ℤ) (hp : 0 ≤ p) (w : User) :
    countersLE w (add_focus_points_user p w) := by
  unfold countersLE add_focus_points_user
  dsimp only
  split_ifs <;> simp <;> omega

/-- One application step never loses the tracked user row, never clears an
achievement flag, and — provided an add-focus-points request carries a
non-negative points value — never decreases a ledger counter. -/
theorem applyOp_step (check : String → String → Bool) (hash : String → String)
    (op : Op) (s : AppState) (i : ℕ) (u : User)
    (hu : getUser s.users i = some u) :
    ∃ v, getUser (applyOp check hash op s).users i = some v ∧ flagsLE u v ∧
      (opPointsOk op → countersLE u v) := by
  cases op with
  | login identifier password =>
    simp only [applyOp, handle_login]
    split
    · exact ⟨u, hu, flagsLE_refl u, fun _ => countersLE_refl u⟩
    · split_ifs with hc
      · refine ⟨_, getUser_updateUser_found _ _ s.users i u hu (fun w => ?_),
          flagsLE_ite_self u _ _ ?_, fun _ => countersLE_ite_self u _ _ ?_⟩
        · split_ifs <;> rfl
        · unfold flagsLE
          split_ifs <;> simp
        · unfold countersLE
          split_ifs <;> simp
      · exact ⟨u, hu, flagsLE_refl u, fun _ => countersLE_refl u⟩
  | register username email password confirm newId now =>
    simp only [applyOp, handle_registration]
    split_ifs with h1 h2 h3 h4 <;>
      first
        | exact ⟨u, hu, flagsLE_refl u, fun _ => countersLE_refl u⟩
        | exact ⟨u, getUser_append_of_found s.users _ i u hu, flagsLE_refl u,
            fun _ => countersLE_refl u⟩
  | addTask uid title sd dl pr newId now =>
    simp only [applyOp, handle_add_task]
    refine ⟨_, getUser_updateUser_found uid _ s.users i u hu (fun w => ?_),
      flagsLE_ite_self u _ _ ?_, fun _ => countersLE_ite_self u _ _ ?_⟩
    · split_ifs <;> rfl
    · unfold flagsLE
      split_ifs <;> simp
    · unfold countersLE
      split_ifs <;> simp
  | updateTask uid taskId title sd dl pr =>
    exact ⟨u, hu, flagsLE_refl u, fun _ => countersLE_refl u⟩
  | toggleTask uid taskId =>
    simp only [applyOp, handle_toggle_task]
    split
    · exact ⟨u, hu, flagsLE_refl u, fun _ => countersLE_refl u⟩
    · dsimp only
      split_ifs with hcond
      · refine ⟨_, getUser_updateUser_found uid _ s.users i u hu (fun w => rfl),
          flagsLE_ite_self u _ _ ?_, fun _ => countersLE_ite_self u _ _ ?_⟩
        · exact ⟨id, id, id, id, id⟩
        · exact ⟨le_add_of_nonneg_right (toggle_points_nonneg _), le_refl _, le_refl _⟩
      · exact ⟨u, hu, flagsLE_refl u, fun _ => countersLE_refl u⟩
  | deleteTask uid taskId =>
    exact ⟨u, hu, flagsLE_refl u, fun _ => countersLE_refl u⟩
  | addNote uid title content newId now =>
    simp only [applyOp, handle_add_note]
    refine ⟨_, getUser_updateUser_found uid _ s.users i u hu (fun w => ?_),
      flagsLE_ite_self u _ _ ?_, fun _ => countersLE_ite_self u _ _ ?_⟩
    · split_ifs <;> rfl
    · unfold flagsLE
      split_ifs <;> simp
    · unfold countersLE
      split_ifs <;> simp
  | updateNote uid noteId title content now =>
    exact ⟨u, hu, flagsLE_refl u, fun _ => countersLE_refl u⟩
  | deleteNote uid noteId =>
    exact ⟨u, hu, flagsLE_refl u, fun _ => countersLE_refl u⟩
  | viewDashboard uid today =>
    simp only [applyOp, show_dashboard_state]
    refine ⟨_, getUser_updateUser_found uid _ s.users i u hu (fun w => ?_),
      flagsLE_ite_self u _ _ ?_, fun _ => countersLE_ite_self u _ _ ?_⟩
    · unfold daily_reset
      split_ifs <;> rfl
    · unfold flagsLE daily_reset
      split_ifs <;> simp
    · unfold countersLE daily_reset
      split_ifs <;> simp
  | viewFocus uid now =>
    simp only [applyOp, show_focus_page_state]
    exact ⟨_, getUser_updateUser_found uid _ s.users i u hu (collect_energy_id now),
      flagsLE_ite_self u _ _ (collect_energy_flagsLE now u),
      fun _ => countersLE_ite_self u _ _ (collect_energy_countersLE now u)⟩
  | sessionComplete uid body now today =>
    simp only [applyOp, handle_session_complete_state, handle_session_complete_user]
    exact ⟨_, getUser_updateUser_found uid _ s.users i u hu
        (session_complete_user_id now today (parse_minutes body)),
      flagsLE_ite_self u _ _ (session_complete_user_flagsLE now today (parse_minutes body) u),
      fun _ => countersLE_ite_self u _ _
        (session_complete_user_countersLE now today (parse_minutes body) u)⟩
  | addFocusPoints uid points =>
    simp only [applyOp, handle_add_focus_points_state]
    exact ⟨_, getUser_updateUser_found uid _ s.users i u hu (add_focus_points_user_id points),
      flagsLE_ite_self u _ _ (add_focus_points_user_flagsLE points u),
      fun hok => countersLE_ite_self u _ _ (add_focus_points_user_countersLE points hok u)⟩
  | addTransaction uid ty de am ca today newId =>
    exact ⟨u, hu, flagsLE_refl u, fun _ => countersLE_refl u⟩
  | setGoal uid name target =>
    simp only [applyOp, handle_set_goal]
    refine ⟨_, getUser_updateUser_found uid _ s.users i u hu (fun w => rfl),
      flagsLE_ite_self u _ _ ?_, fun _ => countersLE_ite_self u _ _ ?_⟩
    · unfold flagsLE
      simp
    · unfold countersLE
      simp
  | updateProfile uid email =>
    simp only [applyOp, handle_update_profile]
    refine ⟨_, getUser_updateUser_found uid _ s.users i u hu (fun w => ?_),
      flagsLE_ite_self u _ _ ?_, fun _ => countersLE_ite_self u _ _ ?_⟩
    · dsimp only
      split_ifs <;> rfl
    · unfold flagsLE
      split_ifs <;> simp
    · unfold countersLE
      split_ifs <;> simp
  | changePassword uid cur npw ncf =>
    simp only [applyOp, handle_change_password]
    refine ⟨_, getUser_updateUser_found uid _ s.users i u hu (fun w => ?_),
      flagsLE_ite_self u _ _ ?_, fun _ => countersLE_ite_self u _ _ ?_⟩
    · split_ifs <;> rfl
    · unfold flagsLE
      split_ifs <;> simp
    · unfold countersLE
      split_ifs <;> simp

/-- C1 (amended): across every operation of the system other than account
deletion, total_focus_points, stars_earned and energy_bank_balance never
decrease, provided the caller-supplied points value of the add-focus-points
endpoint is non-negative; an arbitrary accepted negative points value does
decrease total_focus_points. -/
theorem ledger_counters_monotone (check : String → String → Bool) (hash : String → String)
    (op : Op) (s : AppState) (i : ℕ) (u u' : User)
    (hok : opPointsOk op)
    (hu : getUser s.users i = some u)
    (hu' : getUser (applyOp check hash op s).users i = some u') :
    countersLE u u' := by
  obtain ⟨v, hv, -, hc⟩ := applyOp_step check hash op s i u hu
  rw [hv] at hu'
  obtain rfl : v = u' := Option.some.inj hu'
  exact hc hok

/-- C1 counterexample: the add-focus-points endpoint accepts a negative
caller-supplied points value and decrements total_focus_points with it. -/
theorem add_focus_points_negative_counterexample :
    getUser demoState.users 1 = some demoUser ∧
    getUser (applyOp (fun _ _ => true) (fun p => p)
        (Op.addFocusPoints 1 (-1)) demoState).users 1
      = some { demoUser with total_focus_points := -1 } ∧
    ¬ countersLE demoUser { demoUser with total_focus_points := -1 } := by
  refine ⟨rfl, rfl, ?_⟩
  intro h
  have h1 := h.1
  norm_num [demoUser] at h1

/-- C1 witness instance: a non-negative add-focus-points request keeps the
counters non-decreasing. -/
theorem ledger_counters_monotone_witness :
    opPointsOk (Op.addFocusPoints 1 5) ∧
    getUser demoState.users 1 = some demoUser ∧
    getUser (applyOp (fun _ _ => true) (fun p => p)
        (Op.addFocusPoints 1 5) demoState).users 1
      = some { demoUser with total_focus_points := 5, achievement_first_focus := true } ∧
    countersLE demoUser
      { demoUser with total_focus_points := 5, achievement_first_focus := true } := by
  have hok : opPointsOk (Op.addFocusPoints 1 5) := by
    show (0:ℤ) ≤ 5
    norm_num
  have h2 : getUser (applyOp (fun _ _ => true) (fun p => p)
      (Op.addFocusPoints 1 5) demoState).users 1
      = some { demoUser with total_focus_points := 5, achievement_first_focus := true } := rfl
  exact ⟨hok, rfl, h2,
    ledger_counters_monotone (fun _ _ => true) (fun p => p) (Op.addFocusPoints 1 5)
      demoState 1 demoUser _ hok rfl h2⟩

/-- C8: across every sequence of operations other than account deletion,
each of the five achievement flags, once true, is never reset to false. -/
theorem achievement_flags_monotone (check : String → String → Bool) (hash : String → String)
    (ops : List Op) (s : AppState) (i : ℕ) (u u' : User)
    (hu : getUser s.users i = some u)
    (hu' : getUser (apply_ops check hash ops s).users i = some u') :
    flagsLE u u' := by
  induction ops generalizing s u with
  | nil =>
    rw [show apply_ops check hash [] s = s from rfl, hu] at hu'
    obtain rfl : u = u' := Option.some.inj hu'
    exact flagsLE_refl u
  | cons op rest ih =>
    obtain ⟨v, hv, hflag, -⟩ := applyOp_step check hash op s i u hu
    rw [show apply_ops check hash (op :: rest) s
        = apply_ops check hash rest (applyOp check hash op s) from rfl] at hu'
    exact flagsLE_trans hflag (ih (applyOp check hash op s) v hv hu')

/-- C8 witness instance: clearing the email through a profile update leaves
achievement_email_added (and every other flag) set. -/
theorem achievement_flags_monotone_witness :
    getUser demoState.users 1 = some demoUser ∧
    getUser (apply_ops (fun _ _ => true) (fun p => p)
        [Op.updateProfile 1 ""] demoState).users 1
      = some { demoUser with email := none } ∧
    flagsLE demoUser { demoUser with email := none } := by
  have h2 : getUser (apply_ops (fun _ _ => true) (fun p => p)
      [Op.updateProfile 1 ""] demoState).users 1
      = some { demoUser with email := none } := rfl
  exact ⟨rfl, h2,
    achievement_flags_monotone (fun _ _ => true) (fun p => p) [Op.updateProfile 1 ""]
      demoState 1 demoUser _ rfl h2⟩

/-- C2 witness instance: stars 3 and 17 elapsed seconds accrue
floor(17 / 5) * 3 = 9 energy. -/
theorem energy_accrual_on_focus_view_witness :
    (0 : ℚ) ≤ 17 - demoUser.last_energy_collection_time ∧
    collect_energy 17 demoUser
      = { demoUser with
          energy_bank_balance := demoUser.energy_bank_balance + 9,
          last_energy_collection_time := 17 } := by
  have hs : (0:ℚ) ≤ 17 - demoUser.last_energy_collection_time := by norm_num [demoUser]
  have hfl : ⌊(17 - demoUser.last_energy_collection_time) / 5⌋ * demoUser.stars_earned = 9 := by
    norm_num [demoUser]
  have h := (energy_accrual_on_focus_view demoUser 17 hs).1 (by rw [hfl]; norm_num)
  rw [hfl] at h
  exact ⟨hs, h⟩

/-- C3 witness instance: a non-positive balance yields no estimate. -/
theorem budget_months_to_goal_amended_witness :
    ((-3 : ℚ) ≤ 0) ∧ amended_months_to_goal (some 5) (-3) = none :=
  ⟨by norm_num, budget_months_to_goal_amended.2.2.2.2.1 5 (-3) (by norm_num)⟩

/-- C4 witness instance: completing one incomplete high-priority task
awards 30 points, and the toggle triple awards 60. -/
theorem toggle_task_award_witness :
    demoTask.is_completed = false ∧ demoTask.priority_level = "high" ∧
    (toggle_task_user demoTask demoUser).1.is_completed = true ∧
    (toggle_task_user demoTask demoUser).2.total_focus_points
      = demoUser.total_focus_points + 30 ∧
    (toggle_task_user (toggle_task_user (toggle_task_user demoTask demoUser).1
        (toggle_task_user demoTask demoUser).2).1
      (toggle_task_user (toggle_task_user demoTask demoUser).1
        (toggle_task_user demoTask demoUser).2).2).2.total_focus_points
      = demoUser.total_focus_points + 60 := by
  have h := toggle_task_award demoTask demoUser
  refine ⟨rfl, rfl, (h.1 rfl).1, ?_, h.2.2 rfl rfl⟩
  rw [(h.1 rfl).2]
  norm_num [demoTask]

/-- C5 witness instance: with one high and one low incomplete task the
goal is 30, and the progress formula instantiates. -/
theorem daily_goal_and_progress_witness :
    (∃ t ∈ [demoTask, lowTask],
      t.user_id = 1 ∧ t.is_completed = false ∧ t.priority_level = "high") ∧
    (∃ t ∈ [demoTask, lowTask],
      t.user_id = 1 ∧ t.is_completed = false ∧ t.priority_level = "low") ∧
    daily_focus_goal 1 [demoTask, lowTask] = 30 ∧
    progress_percentage 7 (daily_focus_goal 1 [demoTask, lowTask])
      = min 100 ((100 * 7) / daily_focus_goal 1 [demoTask, lowTask]) := by
  have hh : ∃ t ∈ [demoTask, lowTask],
      t.user_id = 1 ∧ t.is_completed = false ∧ t.priority_level = "high" :=
    ⟨demoTask, by simp, rfl, rfl, rfl⟩
  have hl : ∃ t ∈ [demoTask, lowTask],
      t.user_id = 1 ∧ t.is_completed = false ∧ t.priority_level = "low" :=
    ⟨lowTask, by simp, rfl, rfl, rfl⟩
  have h := daily_goal_and_progress 1 [demoTask, lowTask] 7
  have hg := h.2.2.2.2.1 hh hl
  exact ⟨hh, hl, hg, h.2.2.2.2.2.1 (by rw [hg]; norm_num)⟩

/-- C6 witness instance: tracking date 0, read on day 1. -/
theorem daily_counter_reset_witness :
    demoUser.focus_tracking_date = some 0 ∧ (0:ℤ) < 1 ∧
    (daily_reset 1 demoUser).focus_minutes_today = 0 ∧
    (daily_reset 1 demoUser).focus_tracking_date = some 1 ∧
    (session_complete_user 2 1 25 demoUser).focus_minutes_today = 25 ∧
    (session_complete_user 2 1 25 demoUser).focus_tracking_date = some 1 := by
  have h := daily_counter_reset_on_later_date demoUser 0 1 rfl (by norm_num)
  exact ⟨rfl, by norm_num, h.1, h.2.1, (h.2.2 2 25).1, (h.2.2 2 25).2⟩

/-- C9 witness instance: a password-mismatch registration and a
wrong-current-password change both leave the store untouched. -/
theorem validation_failure_no_mutation_witness :
    ("a" : String) ≠ "b" ∧
    handle_registration (fun p => p) "bob" "" "a" "b" 2 0 demoState = demoState ∧
    handle_change_password (fun stored given => stored == given) (fun p => p)
      1 "wrong" "x" "x" demoState = demoState := by
  have h := validation_failure_no_mutation (fun stored given => stored == given)
    (fun p => p) "bob" "" "a" "b" 2 0 1 "wrong" "x" "x" demoState
  refine ⟨by decide, h.1 (Or.inl (by decide)), h.2 ?_⟩
  intro v hv hvid
  have hvd : v = demoUser := by simpa [demoState] using hv
  subst hvd
  exact Or.inl (by decide)

end Chronex
